/-
Verification of the laneMC operational resilience layer.

Each definition below is a shallow embedding of a function from the
repository (circuit breaker, graceful-degradation coordinator, TTL cache,
budget-pacing analyzer, issue aggregator).  Machine time is modelled as a
natural number of milliseconds; JavaScript numbers are modelled by `JSNum`
(a rational, NaN, or a signed infinity) where IEEE corner cases matter and
by `ℚ` elsewhere; fallible operations return `Except`.
-/
import Mathlib

deriving instance DecidableEq for Except

/-! ## Circuit breaker (`server/services/circuit-breaker 2.ts`) -/

namespace CB

inductive CircuitState where
  | CLOSED
  | OPEN
  | HALF_OPEN
deriving DecidableEq

structure CircuitBreakerConfig where
  failureThreshold : Nat
  recoveryTimeout : Nat
  successThreshold : Nat
deriving DecidableEq

/-- Mutable fields of the `CircuitBreaker` class. -/
structure CBState where
  state : CircuitState
  failures : Nat
  successes : Nat
  lastFailureTime : Option Nat
  lastSuccessTime : Option Nat
  totalCalls : Nat
  rejectedCalls : Nat
  nextAttempt : Option Nat
deriving DecidableEq

/-- Field initialisers of the `CircuitBreaker` class. -/
def initial : CBState :=
  { state := .CLOSED, failures := 0, successes := 0, lastFailureTime := none,
    lastSuccessTime := none, totalCalls := 0, rejectedCalls := 0, nextAttempt := none }

/-- Outcome of the wrapped operation (a timeout is surfaced as a failure by
`executeWithTimeout`, so both map to `failure`). -/
inductive Outcome where
  | success
  | failure
deriving DecidableEq

/-- What `execute` does for the caller: return the operation's result,
rethrow the operation's error, or throw the distinct circuit-open error. -/
inductive ExecResult where
  | ok
  | opError
  | circuitOpen
deriving DecidableEq

/-- `CircuitBreaker.shouldAttemptReset`. -/
def shouldAttemptReset (s : CBState) (now : Nat) : Bool :=
  match s.nextAttempt with
  | some t => decide (t ≤ now)
  | none => false

/-- `CircuitBreaker.onSuccess`. -/
def onSuccess (cfg : CircuitBreakerConfig) (s : CBState) (now : Nat) : CBState :=
  let s := { s with lastSuccessTime := some now, failures := 0 }
  if s.state = .HALF_OPEN then
    let s := { s with successes := s.successes + 1 }
    if cfg.successThreshold ≤ s.successes then
      { s with state := .CLOSED, successes := 0 }
    else s
  else s

/-- `CircuitBreaker.onFailure`. -/
def onFailure (cfg : CircuitBreakerConfig) (s : CBState) (now : Nat) : CBState :=
  let s := { s with failures := s.failures + 1, lastFailureTime := some now }
  if s.state = .HALF_OPEN then
    { s with state := .OPEN, successes := 0, nextAttempt := some (now + cfg.recoveryTimeout) }
  else if s.state = .CLOSED ∧ cfg.failureThreshold ≤ s.failures then
    { s with state := .OPEN, nextAttempt := some (now + cfg.recoveryTimeout) }
  else s

/-- `CircuitBreaker.execute`, given the clock value and the wrapped
operation's outcome.  Returns the caller-visible result, the new state, and
whether the wrapped operation was invoked. -/
def execute (cfg : CircuitBreakerConfig) (s : CBState) (now : Nat) (op : Outcome) :
    ExecResult × CBState × Bool :=
  let s := { s with totalCalls := s.totalCalls + 1 }
  if s.state = .OPEN ∧ ¬ shouldAttemptReset s now then
    (.circuitOpen, { s with rejectedCalls := s.rejectedCalls + 1 }, false)
  else
    let s := if s.state = .OPEN then { s with state := .HALF_OPEN } else s
    match op with
    | .success => (.ok, onSuccess cfg s now, true)
    | .failure => (.opError, onFailure cfg s now, true)

/-- Snapshot returned by `CircuitBreaker.getStats`. -/
structure CircuitBreakerStats where
  state : CircuitState
  failures : Nat
  successes : Nat
  lastFailureTime : Option Nat
  lastSuccessTime : Option Nat
  totalCalls : Nat
  rejectedCalls : Nat
deriving DecidableEq

/-- `CircuitBreaker.getStats`. -/
def getStats (s : CBState) : CircuitBreakerStats :=
  { state := s.state, failures := s.failures, successes := s.successes,
    lastFailureTime := s.lastFailureTime, lastSuccessTime := s.lastSuccessTime,
    totalCalls := s.totalCalls, rejectedCalls := s.rejectedCalls }

/-- `CircuitBreaker.reset`. -/
def reset (s : CBState) : CBState :=
  { s with state := .CLOSED, failures := 0, successes := 0, nextAttempt := none }

/-- Run a sequence of calls whose wrapped operations all fail, at the given
clock values. -/
def runFails (cfg : CircuitBreakerConfig) (s : CBState) (ts : List Nat) : CBState :=
  ts.foldl (fun s t => (execute cfg s t .failure).2.1) s

/-- Run a sequence of calls whose wrapped operations all succeed, at the
given clock values. -/
def runSuccs (cfg : CircuitBreakerConfig) (s : CBState) (ts : List Nat) : CBState :=
  ts.foldl (fun s t => (execute cfg s t .success).2.1) s

lemma execute_closed_failure (cfg : CircuitBreakerConfig) (s : CBState) (now : Nat)
    (h : s.state = .CLOSED) :
    (execute cfg s now .failure).2.1 =
      if cfg.failureThreshold ≤ s.failures + 1 then
        { s with
            totalCalls := s.totalCalls + 1,
            failures := s.failures + 1,
            lastFailureTime := some now,
            state := .OPEN,
            nextAttempt := some (now + cfg.recoveryTimeout) }
      else
        { s with
            totalCalls := s.totalCalls + 1,
            failures := s.failures + 1,
            lastFailureTime := some now } := by
  simp [execute, onFailure, h]

lemma runFails_trip (cfg : CircuitBreakerConfig) :
    ∀ (ts : List Nat) (t : Nat) (s : CBState), s.state = .CLOSED →
      s.failures + (ts.length + 1) = cfg.failureThreshold →
      (runFails cfg s (ts ++ [t])).state = .OPEN ∧
      (runFails cfg s (ts ++ [t])).nextAttempt = some (t + cfg.recoveryTimeout) ∧
      (runFails cfg s (ts ++ [t])).failures = cfg.failureThreshold := by
  intro ts
  induction ts with
  | nil =>
    intro t s hst hcnt
    simp only [List.nil_append, runFails, List.foldl_cons, List.foldl_nil]
    rw [execute_closed_failure cfg s t hst]
    simp only [List.length_nil, Nat.zero_add] at hcnt
    rw [if_pos (by omega)]
    exact ⟨rfl, rfl, by simpa using hcnt⟩
  | cons t0 ts ih =>
    intro t s hst hcnt
    simp only [List.length_cons] at hcnt
    simp only [List.cons_append, runFails, List.foldl_cons]
    rw [execute_closed_failure cfg s t0 hst, if_neg (by omega)]
    exact ih t _ hst (by simp; omega)

lemma execute_open_rejected (cfg : CircuitBreakerConfig) (s : CBState) (now t : Nat)
    (op : Outcome) (h : s.state = .OPEN) (ha : s.nextAttempt = some t) (hn : now < t) :
    execute cfg s now op =
      (.circuitOpen,
       { s with totalCalls := s.totalCalls + 1, rejectedCalls := s.rejectedCalls + 1 },
       false) := by
  simp [execute, shouldAttemptReset, h, ha, Nat.not_le.mpr hn]

lemma execute_open_probe (cfg : CircuitBreakerConfig) (s : CBState) (now t : Nat)
    (op : Outcome) (h : s.state = .OPEN) (ha : s.nextAttempt = some t) (hn : t ≤ now) :
    (execute cfg s now op).2.2 = true := by
  simp only [execute, shouldAttemptReset, h, ha]
  rw [if_neg (by simp [hn])]
  cases op <;> rfl

lemma execute_half_open_success (cfg : CircuitBreakerConfig) (s : CBState) (now : Nat)
    (h : s.state = .HALF_OPEN) :
    (execute cfg s now .success).2.1 =
      if cfg.successThreshold ≤ s.successes + 1 then
        { s with
            totalCalls := s.totalCalls + 1,
            failures := 0,
            lastSuccessTime := some now,
            successes := 0,
            state := .CLOSED }
      else
        { s with
            totalCalls := s.totalCalls + 1,
            failures := 0,
            lastSuccessTime := some now,
            successes := s.successes + 1 } := by
  simp [execute, onSuccess, h]

lemma runSuccs_recover (cfg : CircuitBreakerConfig) :
    ∀ (ts : List Nat) (s : CBState), s.state = .HALF_OPEN →
      s.successes + ts.length = cfg.successThreshold → ts ≠ [] →
      (runSuccs cfg s ts).state = .CLOSED ∧
      (runSuccs cfg s ts).successes = 0 ∧
      (runSuccs cfg s ts).failures = 0 := by
  intro ts
  induction ts with
  | nil => intro s _ _ hne; exact absurd rfl hne
  | cons t0 ts ih =>
    intro s hst hcnt _
    simp only [List.length_cons] at hcnt
    simp only [runSuccs, List.foldl_cons]
    rw [execute_half_open_success cfg s t0 hst]
    by_cases hdone : cfg.successThreshold ≤ s.successes + 1
    · rw [if_pos hdone]
      have hts : ts = [] := by
        cases ts with
        | nil => rfl
        | cons a l => simp at hcnt; omega
      subst hts
      exact ⟨rfl, rfl, rfl⟩
    · rw [if_neg hdone]
      have hne : ts ≠ [] := by
        cases ts with
        | nil => simp at hcnt; omega
        | cons a l => simp
      exact ih _ hst (by simp; omega) hne

lemma execute_half_open_failure (cfg : CircuitBreakerConfig) (s : CBState) (now : Nat)
    (h : s.state = .HALF_OPEN) :
    execute cfg s now .failure =
      (.opError,
       { s with
           totalCalls := s.totalCalls + 1,
           failures := s.failures + 1,
           lastFailureTime := some now,
           state := .OPEN,
           successes := 0,
           nextAttempt := some (now + cfg.recoveryTimeout) },
       true) := by
  simp [execute, onFailure, h]

end CB

/-- C1: the circuit breaker realises the specified state machine: it starts
`CLOSED`; `failureThreshold` consecutive failures leave it `OPEN` with
`nextAttemptTime` recorded; while `OPEN` and before `recoveryTimeout` has
elapsed every call is rejected with the distinct circuit-open error without
invoking the wrapped operation; once `recoveryTimeout` has elapsed the next
call is let through as a probe (state `HALF_OPEN` on success while more
successes are still needed); `successThreshold` consecutive successes in
`HALF_OPEN` restore `CLOSED` with counters reset; one failure in `HALF_OPEN`
reopens the circuit with a fresh `nextAttemptTime`. -/
theorem circuit_breaker_state_machine (cfg : CB.CircuitBreakerConfig)
    (_hf : 1 ≤ cfg.failureThreshold) (hs : 1 ≤ cfg.successThreshold) :
    (CB.initial.state = .CLOSED)
    ∧ (∀ (ts : List Nat) (t : Nat), ts.length + 1 = cfg.failureThreshold →
        (CB.runFails cfg CB.initial (ts ++ [t])).state = .OPEN ∧
        (CB.runFails cfg CB.initial (ts ++ [t])).nextAttempt =
          some (t + cfg.recoveryTimeout))
    ∧ (∀ (s : CB.CBState) (now t : Nat) (op : CB.Outcome),
        s.state = .OPEN → s.nextAttempt = some t → now < t →
        CB.execute cfg s now op =
          (.circuitOpen,
           { s with
               totalCalls := s.totalCalls + 1,
               rejectedCalls := s.rejectedCalls + 1 }, false))
    ∧ (∀ (s : CB.CBState) (now t : Nat) (op : CB.Outcome),
        s.state = .OPEN → s.nextAttempt = some t → t ≤ now →
        (CB.execute cfg s now op).2.2 = true ∧
        (op = .success → s.successes = 0 → 2 ≤ cfg.successThreshold →
          ((CB.execute cfg s now op).2.1).state = .HALF_OPEN))
    ∧ (∀ (s : CB.CBState) (ts : List Nat),
        s.state = .HALF_OPEN → s.successes = 0 → ts.length = cfg.successThreshold →
        (CB.runSuccs cfg s ts).state = .CLOSED ∧
        (CB.runSuccs cfg s ts).successes = 0 ∧
        (CB.runSuccs cfg s ts).failures = 0)
    ∧ (∀ (s : CB.CBState) (now : Nat), s.state = .HALF_OPEN →
        CB.execute cfg s now .failure =
          (.opError,
           { s with
               totalCalls := s.totalCalls + 1,
               failures := s.failures + 1,
               lastFailureTime := some now,
               state := .OPEN,
               successes := 0,
               nextAttempt := some (now + cfg.recoveryTimeout) }, true)) := by
  refine ⟨rfl, ?_, ?_, ?_, ?_, ?_⟩
  · intro ts t hlen
    have h := CB.runFails_trip cfg ts t CB.initial rfl (by simpa [CB.initial] using hlen)
    exact ⟨h.1, h.2.1⟩
  · intro s now t op h ha hn
    exact CB.execute_open_rejected cfg s now t op h ha hn
  · intro s now t op h ha hn
    refine ⟨CB.execute_open_probe cfg s now t op h ha hn, ?_⟩
    rintro rfl hz h2
    simp only [CB.execute, CB.shouldAttemptReset, h, ha]
    rw [if_neg (by simp [hn])]
    simp [CB.onSuccess, hz]
    rw [if_neg (by omega)]
  · intro s ts hst hz hlen
    exact CB.runSuccs_recover cfg ts s hst (by omega) (by
      cases ts with
      | nil => simp at hlen; omega
      | cons a l => simp)
  · intro s now hst
    exact CB.execute_half_open_failure cfg s now hst

/-- C1 witness: with thresholds `failureThreshold = 2`, `successThreshold = 2`
and `recoveryTimeout = 10`, two failures trip the breaker at `nextAttempt =
11`, a call at time `5` is rejected without invoking the operation, and a
failure from `HALF_OPEN` reopens the circuit. -/
theorem circuit_breaker_state_machine_witness :
    (CB.runFails ⟨2, 10, 2⟩ CB.initial [0, 1]).state = .OPEN ∧
    (CB.runFails ⟨2, 10, 2⟩ CB.initial [0, 1]).nextAttempt = some 11 ∧
    (CB.execute ⟨2, 10, 2⟩ (CB.runFails ⟨2, 10, 2⟩ CB.initial [0, 1]) 5 .success).2.2
      = false := by
  have h := circuit_breaker_state_machine ⟨2, 10, 2⟩ (by decide) (by decide)
  have htrip := h.2.1 [0] 1 (by decide)
  refine ⟨htrip.1, htrip.2, ?_⟩
  have hrej := h.2.2.1 (CB.runFails ⟨2, 10, 2⟩ CB.initial [0, 1]) 5 11 .success
    htrip.1 htrip.2 (by decide)
  rw [hrej]

/-- C9 counterexample: after a single failed call, `reset()` followed by
`getStats()` reports `totalCalls = 1`, not `0` — `reset` does not zero
`totalCalls` (nor `rejectedCalls`). -/
theorem circuit_breaker_reset_counterexample :
    (CB.getStats (CB.reset
        ((CB.execute ⟨5, 60000, 3⟩ CB.initial 0 .failure).2.1))).state = .CLOSED ∧
    (CB.getStats (CB.reset
        ((CB.execute ⟨5, 60000, 3⟩ CB.initial 0 .failure).2.1))).totalCalls = 1 ∧
    (1 : Nat) ≠ 0 := by
  refine ⟨rfl, rfl, by decide⟩

/-- C9 amended: `reset()`, from any state, forces `CLOSED`, zeroes
`failureCount` and `successCount`, and clears `nextAttemptTime`; the
`totalCalls` and `rejectedCalls` counters are preserved, so a subsequent
`getStats()` snapshot shows state `CLOSED` with `failures = successes = 0`
and the previous `totalCalls`/`rejectedCalls` values. -/
theorem circuit_breaker_reset_amended (s : CB.CBState) :
    (CB.reset s).state = .CLOSED ∧
    (CB.reset s).failures = 0 ∧
    (CB.reset s).successes = 0 ∧
    (CB.reset s).nextAttempt = none ∧
    CB.getStats (CB.reset s) =
      { state := .CLOSED, failures := 0, successes := 0,
        lastFailureTime := s.lastFailureTime, lastSuccessTime := s.lastSuccessTime,
        totalCalls := s.totalCalls, rejectedCalls := s.rejectedCalls } :=
  ⟨rfl, rfl, rfl, rfl, rfl⟩

/-! ## TTL cache (`CacheService`, `server/services/cache.ts`)

One `node-cache` instance is a map from keys to entries carrying an
absolute expiry time in milliseconds (`0` = no expiry, the `node-cache`
convention for `ttl = 0`).  `getCachedResult` is modelled for
non-concurrent access: the producer is a pre-determined `Except` outcome
and the model additionally reports how many times it was invoked. -/

namespace Cache

structure Entry (α : Type) where
  value : α
  expiresAt : Nat
deriving DecidableEq

def Store (α : Type) : Type := String → Option (Entry α)

/-- `node-cache` liveness check: an entry is expired once its expiry time
is strictly in the past (`data.t !== 0 && data.t < Date.now()`). -/
def Entry.live (e : Entry α) (now : Nat) : Bool :=
  e.expiresAt = 0 ∨ ¬ e.expiresAt < now

/-- `node-cache` `get`: a live entry is returned; an expired entry is
deleted on access (`deleteOnExpire`) and reported absent. -/
def ncGet (st : Store α) (now : Nat) (key : String) : Option α × Store α :=
  match st key with
  | none => (none, st)
  | some e =>
    if e.live now then (some e.value, st)
    else (none, fun k => if k = key then none else st k)

/-- `node-cache` `set` with a ttl in seconds; `ttl = 0` stores without
expiry. -/
def ncSet (st : Store α) (now : Nat) (key : String) (v : α) (ttlSeconds : Nat) : Store α :=
  fun k =>
    if k = key then
      some { value := v, expiresAt := if ttlSeconds = 0 then 0 else now + ttlSeconds * 1000 }
    else st k

/-- `CacheService.get` (the hit/miss statistics are observability only and
not modelled). -/
def get (st : Store α) (now : Nat) (key : String) : Option α × Store α :=
  ncGet st now key

/-- `CacheService.set`: the ttl argument is optional and defaulted with
`ttl || 0`. -/
def set (st : Store α) (now : Nat) (key : String) (v : α) (ttl : Option Nat) : Store α :=
  ncSet st now key v (ttl.getD 0)

/-- `CacheService.getCachedResult`, for a producer whose one outcome is
`operation`.  Returns the caller-visible result, the new store, and the
number of times the producer ran. -/
def getCachedResult (st : Store α) (now : Nat) (key : String)
    (operation : Except ε α) (ttl : Option Nat) :
    Except ε α × Store α × Nat :=
  match get st now key with
  | (some v, st') => (.ok v, st', 0)
  | (none, st') =>
    match operation with
    | .ok r => (.ok r, set st' now key r ttl, 1)
    | .error e => (.error e, st', 1)

end Cache

/-- C6: for non-concurrent access, `getCachedResult` invokes the producer
zero times on an unexpired hit (returning the cached value) and exactly
once on a miss (storing the fresh result under the key with the given ttl
and returning it); a producer exception propagates and nothing is stored
under the key; and a value set with ttl `T > 0` is retrievable before `T`
seconds elapse and absent after. -/
theorem cache_getCachedResult_contract {α ε : Type}
    (st : Cache.Store α) (now : Nat) (key : String) (op : Except ε α)
    (ttl : Option Nat) :
    (∀ e : Cache.Entry α, st key = some e → e.live now →
      Cache.getCachedResult st now key op ttl = (.ok e.value, st, 0))
    ∧ ((Cache.get st now key).1 = none →
        ∀ r : α, op = .ok r →
        (Cache.getCachedResult st now key op ttl).1 = .ok r ∧
        (Cache.getCachedResult st now key op ttl).2.2 = 1 ∧
        (Cache.getCachedResult st now key op ttl).2.1 key =
          some { value := r,
                 expiresAt := if ttl.getD 0 = 0 then 0
                              else now + ttl.getD 0 * 1000 })
    ∧ ((Cache.get st now key).1 = none →
        ∀ e : ε, op = .error e →
        (Cache.getCachedResult st now key op ttl).1 = .error e ∧
        (Cache.getCachedResult st now key op ttl).2.2 = 1 ∧
        (Cache.getCachedResult st now key op ttl).2.1 key = none)
    ∧ (∀ (v : α) (T t : Nat), 0 < T →
        (t < now + T * 1000 →
          (Cache.get (Cache.set st now key v (some T)) t key).1 = some v) ∧
        (now + T * 1000 < t →
          (Cache.get (Cache.set st now key v (some T)) t key).1 = none)) := by
  refine ⟨?_, ?_, ?_, ?_⟩
  · intro e he hlive
    simp [Cache.getCachedResult, Cache.get, Cache.ncGet, he, hlive]
  · intro hmiss r hop
    subst hop
    cases hk : st key with
    | none =>
      simp [Cache.getCachedResult, Cache.get, Cache.ncGet, hk, Cache.set, Cache.ncSet]
    | some e =>
      by_cases hl : e.live now
      · exfalso
        simp [Cache.get, Cache.ncGet, hk, hl] at hmiss
      · simp [Cache.getCachedResult, Cache.get, Cache.ncGet, hk, hl,
          Cache.set, Cache.ncSet]
  · intro hmiss e hop
    subst hop
    cases hk : st key with
    | none =>
      simp [Cache.getCachedResult, Cache.get, Cache.ncGet, hk, Cache.set, Cache.ncSet]
    | some e2 =>
      by_cases hl : e2.live now
      · exfalso
        simp [Cache.get, Cache.ncGet, hk, hl] at hmiss
      · simp [Cache.getCachedResult, Cache.get, Cache.ncGet, hk, hl,
          Cache.set, Cache.ncSet]
  · intro v T t hT
    have hT0 : T ≠ 0 := by omega
    constructor
    · intro ht
      simp [Cache.get, Cache.ncGet, Cache.set, Cache.ncSet, Cache.Entry.live, hT0]
      rw [if_pos (by omega)]
    · intro ht
      simp [Cache.get, Cache.ncGet, Cache.set, Cache.ncSet, Cache.Entry.live, hT0]
      rw [if_neg (by omega)]


/-- C6 witness: a concrete run over `Nat` values: a fresh store misses and
stores `7` under `"k"` with ttl 2 s at time 1000; the stored value is a hit
(producer not invoked) at time 2000 and absent at time 4000; a failing
producer propagates its error and stores nothing. -/
theorem cache_getCachedResult_contract_witness :
    (Cache.getCachedResult (fun _ => none) 1000 "k"
        (.ok 7 : Except Unit Nat) (some 2)).1 = .ok 7 ∧
    (Cache.getCachedResult (fun _ => none) 1000 "k"
        (.ok 7 : Except Unit Nat) (some 2)).2.2 = 1 ∧
    (Cache.getCachedResult (fun _ => none) 1000 "k"
        (.ok 7 : Except Unit Nat) (some 2)).2.1 "k" =
      some { value := 7, expiresAt := 3000 } ∧
    (Cache.get (Cache.set (fun _ => none) 1000 "k" 7 (some 2)) 2000 "k").1 = some 7 ∧
    (Cache.get (Cache.set (fun _ => none) 1000 "k" 7 (some 2)) 4000 "k").1 = none ∧
    (Cache.getCachedResult (fun _ => none) 1000 "k"
        (.error () : Except Unit Nat) (some 2)).1 = .error () ∧
    (Cache.getCachedResult (fun _ => none) 1000 "k"
        (.error () : Except Unit Nat) (some 2)).2.1 "k" = none := by
  have h := cache_getCachedResult_contract (fun _ => none) 1000 "k"
    (.ok 7 : Except Unit Nat) (some 2)
  have hmiss := h.2.1 (by rfl) 7 rfl
  have h2 := cache_getCachedResult_contract (fun _ => none) 1000 "k"
    (.error () : Except Unit Nat) (some 2)
  have herr := h2.2.2.1 (by rfl) () rfl
  have httl := h.2.2.2 7 2 2000 (by decide)
  have httl2 := h.2.2.2 7 2 4000 (by decide)
  exact ⟨hmiss.1, hmiss.2.1, hmiss.2.2, httl.1 (by decide), httl2.2 (by decide),
    herr.1, herr.2.2⟩

/-! ## Graceful degradation (`GracefulDegradationService`, `src/unnamed/part_009`)

`executeWithFallback` is modelled with the primary and fallback operations
as pre-determined `Except` outcomes; the JavaScript truthiness test
`if (cached)` on the generic cached value is modelled with an explicit
`truthy` predicate on the value type.  The internal `Map` cache stores
`(data, timestamp)` pairs with a 30-minute ttl. -/

namespace GDS

/-- The `FallbackData.source` union (`cache`, `mock`, `partial`). -/
inductive Source where
  | cache
  | mock
  | partialSource
deriving DecidableEq

structure FallbackData where
  source : Source
  timestamp : Nat
  warning : Option String
deriving DecidableEq

def CACHE_TTL : Nat := 30 * 60 * 1000

def DCache (α : Type) : Type := String → Option (α × Nat)

/-- `GracefulDegradationService.setCache`. -/
def setCache (c : DCache α) (key : String) (dat : α) (now : Nat) : DCache α :=
  fun k => if k = key then some (dat, now) else c k

/-- `GracefulDegradationService.getCache`: an entry older than `CACHE_TTL`
is deleted and reported absent. -/
def getCache (c : DCache α) (now : Nat) (key : String) : Option α × DCache α :=
  match c key with
  | none => (none, c)
  | some (dat, ts) =>
    if CACHE_TTL < now - ts then (none, fun k => if k = key then none else c k)
    else (some dat, c)

/-- A fallback outcome: the fallback ran, its result (or the original
primary error) is returned and nothing further is cached. -/
def runFallback (e : ε) (c : DCache α) (fb : Except ε α) : Except ε α × DCache α × Bool :=
  match fb with
  | .ok r => (.ok r, c, true)
  | .error _ => (.error e, c, true)

/-- `GracefulDegradationService.executeWithFallback`.  Returns the
caller-visible result, the cache afterwards, and whether the fallback
operation was invoked. -/
def executeWithFallback (truthy : α → Bool) (c : DCache α) (now : Nat)
    (operation fallbackOperation : Except ε α) (cacheKey : Option String) :
    Except ε α × DCache α × Bool :=
  match operation with
  | .ok result =>
    (.ok result,
     (match cacheKey with
      | some k => setCache c k result now
      | none => c),
     false)
  | .error e =>
    let g : Option α × DCache α :=
      match cacheKey with
      | some k => getCache c now k
      | none => (none, c)
    match g.1 with
    | some cached =>
      if truthy cached then (.ok cached, g.2, false)
      else runFallback e g.2 fallbackOperation
    | none => runFallback e g.2 fallbackOperation

/-- The truthy unexpired cached value visible to `executeWithFallback`
(`if (cached)` passes only for a truthy value). -/
def cachedTruthy (truthy : α → Bool) (c : DCache α) (now : Nat) :
    Option String → Option α
  | some k =>
    (match (getCache c now k).1 with
     | some d => if truthy d then some d else none
     | none => none)
  | none => none

end GDS

/-- C2 counterexample: the claim fails when the cached value is falsy.
With a `Bool` payload whose JavaScript truthiness is its own value, an
unexpired `false` is cached under `"k"`, yet when the primary fails the
`if (cached)` test rejects it: the fallback IS invoked and its result
(`true`), not the cached value, is returned. -/
theorem graceful_degradation_counterexample :
    ((fun k => if k = "k" then some (false, 0) else none) : GDS.DCache Bool) "k"
        = some (false, 0)
    ∧ ((0 : Nat) - 0 ≤ GDS.CACHE_TTL)
    ∧ (GDS.executeWithFallback (fun b => b)
        (fun k => if k = "k" then some (false, 0) else none) 0
        (.error () : Except Unit Bool) (.ok true) (some "k")).2.2 = true
    ∧ (GDS.executeWithFallback (fun b => b)
        (fun k => if k = "k" then some (false, 0) else none) 0
        (.error () : Except Unit Bool) (.ok true) (some "k")).1 = .ok true := by
  refine ⟨by simp, by decide, rfl, rfl⟩

/-- C2 amended: as the claim states, but "an unexpired previously-cached
value exists" must be read through the code's `if (cached)` test, i.e. the
cached value must also be truthy: when the primary succeeds its result is
returned and cached under the key; when the primary fails and a truthy
unexpired cached value exists it is returned and the fallback is never
invoked; when the primary fails and no truthy unexpired cached value
exists the fallback is invoked and its result returned; when both fail the
primary's original error is raised. -/
theorem graceful_degradation_amended {α ε : Type} (truthy : α → Bool)
    (c : GDS.DCache α) (now : Nat) (fb : Except ε α) (key : Option String) :
    (∀ r : α,
      (GDS.executeWithFallback truthy c now (.ok r) fb key).1 = .ok r ∧
      (GDS.executeWithFallback truthy c now (.ok r) fb key).2.2 = false ∧
      ∀ k, key = some k →
        (GDS.executeWithFallback truthy c now (.ok r) fb key).2.1 k = some (r, now))
    ∧ (∀ (e : ε) (d : α), GDS.cachedTruthy truthy c now key = some d →
        (GDS.executeWithFallback truthy c now (.error e) fb key).1 = .ok d ∧
        (GDS.executeWithFallback truthy c now (.error e) fb key).2.2 = false)
    ∧ (∀ (e : ε) (r : α), GDS.cachedTruthy truthy c now key = none → fb = .ok r →
        (GDS.executeWithFallback truthy c now (.error e) fb key).1 = .ok r ∧
        (GDS.executeWithFallback truthy c now (.error e) fb key).2.2 = true)
    ∧ (∀ (e e2 : ε), GDS.cachedTruthy truthy c now key = none → fb = .error e2 →
        (GDS.executeWithFallback truthy c now (.error e) fb key).1 = .error e ∧
        (GDS.executeWithFallback truthy c now (.error e) fb key).2.2 = true) := by
  refine ⟨?_, ?_, ?_, ?_⟩
  · intro r
    refine ⟨rfl, rfl, ?_⟩
    rintro k rfl
    simp [GDS.executeWithFallback, GDS.setCache]
  · intro e d hcached
    cases key with
    | none => simp [GDS.cachedTruthy] at hcached
    | some k =>
      simp only [GDS.cachedTruthy] at hcached
      cases hg : (GDS.getCache c now k).1 with
      | none => rw [hg] at hcached; simp at hcached
      | some d0 =>
        rw [hg] at hcached
        by_cases htr : truthy d0
        · simp [htr] at hcached
          subst hcached
          simp only [GDS.executeWithFallback]
          rw [hg]
          simp [htr]
        · simp [htr] at hcached
  · intro e r hcached hfb
    subst hfb
    cases key with
    | none => simp [GDS.executeWithFallback, GDS.runFallback]
    | some k =>
      simp only [GDS.cachedTruthy] at hcached
      simp only [GDS.executeWithFallback]
      cases hg : (GDS.getCache c now k).1 with
      | none => simp [GDS.runFallback]
      | some d0 =>
        rw [hg] at hcached
        by_cases htr : truthy d0
        · simp [htr] at hcached
        · simp [htr, GDS.runFallback]
  · intro e e2 hcached hfb
    subst hfb
    cases key with
    | none => simp [GDS.executeWithFallback, GDS.runFallback]
    | some k =>
      simp only [GDS.cachedTruthy] at hcached
      simp only [GDS.executeWithFallback]
      cases hg : (GDS.getCache c now k).1 with
      | none => simp [GDS.runFallback]
      | some d0 =>
        rw [hg] at hcached
        by_cases htr : truthy d0
        · simp [htr] at hcached
        · simp [htr, GDS.runFallback]

/-- C2 witness: over `Nat` payloads (truthiness: nonzero), a primary
success `5` is returned and cached; with a truthy `7` cached, a failing
primary returns `7` without invoking the fallback; with an empty cache the
fallback result `9` is returned; with both failing, the primary's error
`"boom"` is raised, not the fallback's `"other"`. -/
theorem graceful_degradation_amended_witness :
    (GDS.executeWithFallback (fun n => n ≠ 0) (fun _ => none) 0
        (.ok 5 : Except String Nat) (.ok 9) (some "k")).1 = .ok 5
    ∧ (GDS.executeWithFallback (fun n => n ≠ 0) (fun _ => none) 0
        (.ok 5 : Except String Nat) (.ok 9) (some "k")).2.1 "k" = some (5, 0)
    ∧ (GDS.executeWithFallback (fun n => n ≠ 0)
        (fun k => if k = "k" then some (7, 0) else none) 100
        (.error "boom" : Except String Nat) (.ok 9) (some "k")).1 = .ok 7
    ∧ (GDS.executeWithFallback (fun n => n ≠ 0)
        (fun k => if k = "k" then some (7, 0) else none) 100
        (.error "boom" : Except String Nat) (.ok 9) (some "k")).2.2 = false
    ∧ (GDS.executeWithFallback (fun n => n ≠ 0) (fun _ => none) 0
        (.error "boom" : Except String Nat) (.ok 9) (some "k")).1 = .ok 9
    ∧ (GDS.executeWithFallback (fun n => n ≠ 0) (fun _ => none) 0
        (.error "boom" : Except String Nat) (.error "other") (some "k")).1
        = .error "boom" := by
  have h1 := (graceful_degradation_amended (fun n => decide (n ≠ 0)) (fun _ => none) 0
    (.ok 9 : Except String Nat) (some "k")).1 5
  have h2 := (graceful_degradation_amended (fun n => decide (n ≠ 0))
    (fun k => if k = "k" then some (7, 0) else none) 100
    (.ok 9 : Except String Nat) (some "k")).2.1 "boom" 7 (by rfl)
  have h3 := (graceful_degradation_amended (fun n => decide (n ≠ 0)) (fun _ => none) 0
    (.ok 9 : Except String Nat) (some "k")).2.2.1 "boom" 9 (by rfl) rfl
  have h4 := (graceful_degradation_amended (fun n => decide (n ≠ 0)) (fun _ => none) 0
    (.error "other" : Except String Nat) (some "k")).2.2.2 "boom" "other" (by rfl) rfl
  exact ⟨h1.1, h1.2.2 "k" rfl, h2.1, h2.2, h3.1, h4.1⟩

namespace GDS

/-- A `google_ads_accounts` row as returned by
`storage.getGoogleAdsAccounts` (nullable columns are `Option`). -/
structure StorageAccount where
  id : String
  customerId : String
  name : String
  currency : Option String
  timezone : Option String
  isActive : Option Bool
deriving DecidableEq

structure GoogleAdsAccountFallback where
  id : String
  customerId : String
  name : String
  currency : String
  timezone : String
  isActive : Bool
  fallback : FallbackData
deriving DecidableEq

/-- JavaScript `x || dflt` on a nullable string: `null` and the empty
string are falsy. -/
def jsOrStr (v : Option String) (dflt : String) : String :=
  match v with
  | some s => if s = "" then dflt else s
  | none => dflt

/-- JavaScript `x || false` on a nullable boolean. -/
def jsOrFalse (v : Option Bool) : Bool :=
  match v with
  | some b => b
  | none => false

/-- The account mapping in the primary branch of
`getGoogleAdsAccountsWithFallback` (note: it too tags `source: 'cache'`). -/
def mapAccount (now : Nat) (a : StorageAccount) : GoogleAdsAccountFallback :=
  { id := a.id, customerId := a.customerId, name := a.name,
    currency := jsOrStr a.currency "USD", timezone := jsOrStr a.timezone "UTC",
    isActive := jsOrFalse a.isActive,
    fallback := { source := .cache, timestamp := now, warning := none } }

/-- The fallback branch of `getGoogleAdsAccountsWithFallback`: the
hard-coded demo account.  The source tag written by the code is
`'cache'`, with a human-readable warning. -/
def mockAccounts (now : Nat) : List GoogleAdsAccountFallback :=
  [{ id := "mock-account-1", customerId := "1234567890",
     name := "Demo Account (Service Unavailable)", currency := "USD",
     timezone := "America/New_York", isActive := true,
     fallback := { source := .cache, timestamp := now,
                   warning := some "Google Ads service is temporarily unavailable. Showing demo data." } }]

/-- `GracefulDegradationService.getGoogleAdsAccountsWithFallback`, over the
storage call's outcome.  A JavaScript array is always truthy. -/
def getGoogleAdsAccountsWithFallback (c : DCache (List GoogleAdsAccountFallback))
    (now : Nat) (storageResult : Except ε (List StorageAccount))
    (userId : Option String) :
    Except ε (List GoogleAdsAccountFallback)
      × DCache (List GoogleAdsAccountFallback) × Bool :=
  executeWithFallback (fun _ => true) c now
    (storageResult.map (List.map (mapAccount now)))
    (.ok (mockAccounts now))
    (some ("accounts_" ++ (match userId with | some u => u | none => "all")))

end GDS

/-- C4: evaluating the account accessor at the failing input — the primary
(storage) call throws and no cached entry exists — shows the synthetic
fallback result is tagged `source = cache` (with a warning), not
`source = mock` as the claim states: the code never writes the `mock` tag
that its own `FallbackData` type declares and its comments promise. -/
theorem degradation_mock_tagged_cache :
    (GDS.getGoogleAdsAccountsWithFallback (fun _ => none) 0
        (.error () : Except Unit (List GDS.StorageAccount)) none).1
      = .ok (GDS.mockAccounts 0)
    ∧ (GDS.getGoogleAdsAccountsWithFallback (fun _ => none) 0
        (.error () : Except Unit (List GDS.StorageAccount)) none).2.2 = true
    ∧ ∀ a ∈ GDS.mockAccounts 0,
        a.fallback.source = GDS.Source.cache
        ∧ a.fallback.source ≠ GDS.Source.mock
        ∧ a.fallback.warning =
            some "Google Ads service is temporarily unavailable. Showing demo data." := by
  refine ⟨rfl, rfl, ?_⟩
  intro a ha
  simp [GDS.mockAccounts] at ha
  subst ha
  exact ⟨rfl, by simp, rfl⟩

/-! ## JavaScript number model for the budget analyzer

The analyzer (`SurgicalBudgetAnalysisService`, `src/unnamed/part_007`)
performs unguarded divisions, so its arithmetic is modelled on a
JavaScript-number type: a finite rational, NaN, or a signed infinity.
Finite decimal inputs and results are exact rationals; IEEE rounding only
perturbs values within the claims' 2-decimal tolerance and is not
modelled.  Signed zero is ignored (literal `0` is `+0`), which matches
every division reachable here. -/

inductive JSNum where
  | nan
  | posInf
  | negInf
  | num (q : ℚ)
deriving DecidableEq

namespace JSNum

def neg : JSNum → JSNum
  | nan => nan
  | posInf => negInf
  | negInf => posInf
  | num a => num (-a)

def add : JSNum → JSNum → JSNum
  | nan, _ => nan
  | _, nan => nan
  | posInf, negInf => nan
  | posInf, _ => posInf
  | negInf, posInf => nan
  | negInf, _ => negInf
  | num _, posInf => posInf
  | num _, negInf => negInf
  | num a, num b => num (a + b)

def sub (a b : JSNum) : JSNum := a.add b.neg

def mul : JSNum → JSNum → JSNum
  | nan, _ => nan
  | _, nan => nan
  | posInf, posInf => posInf
  | posInf, negInf => negInf
  | posInf, num b => if b = 0 then nan else if 0 < b then posInf else negInf
  | negInf, posInf => negInf
  | negInf, negInf => posInf
  | negInf, num b => if b = 0 then nan else if 0 < b then negInf else posInf
  | num a, posInf => if a = 0 then nan else if 0 < a then posInf else negInf
  | num a, negInf => if a = 0 then nan else if 0 < a then negInf else posInf
  | num a, num b => num (a * b)

def div : JSNum → JSNum → JSNum
  | nan, _ => nan
  | _, nan => nan
  | posInf, posInf => nan
  | posInf, negInf => nan
  | negInf, posInf => nan
  | negInf, negInf => nan
  | posInf, num b => if 0 ≤ b then posInf else negInf
  | negInf, num b => if 0 ≤ b then negInf else posInf
  | num _, posInf => num 0
  | num _, negInf => num 0
  | num a, num b =>
    if b = 0 then (if a = 0 then nan else if 0 < a then posInf else negInf)
    else num (a / b)

/-- JavaScript `<` (false when either operand is NaN). -/
def lt : JSNum → JSNum → Bool
  | nan, _ => false
  | _, nan => false
  | posInf, _ => false
  | negInf, negInf => false
  | negInf, _ => true
  | num _, posInf => true
  | num _, negInf => false
  | num a, num b => decide (a < b)

/-- JavaScript `>`. -/
def gt (a b : JSNum) : Bool := lt b a

/-- JavaScript `===` on numbers. -/
def jsEq : JSNum → JSNum → Bool
  | num a, num b => decide (a = b)
  | posInf, posInf => true
  | negInf, negInf => true
  | _, _ => false

/-- `Math.abs`. -/
def abs : JSNum → JSNum
  | nan => nan
  | posInf => posInf
  | negInf => posInf
  | num a => num |a|

/-- `Math.max` of two arguments (NaN-propagating). -/
def jsMax : JSNum → JSNum → JSNum
  | nan, _ => nan
  | _, nan => nan
  | posInf, _ => posInf
  | _, posInf => posInf
  | negInf, b => b
  | a, negInf => a
  | num a, num b => num (Max.max a b)

/-- `Math.min` of two arguments (NaN-propagating). -/
def jsMin : JSNum → JSNum → JSNum
  | nan, _ => nan
  | _, nan => nan
  | negInf, _ => negInf
  | _, negInf => negInf
  | posInf, b => b
  | a, posInf => a
  | num a, num b => num (Min.min a b)

def isFinite : JSNum → Bool
  | num _ => true
  | _ => false

@[simp] lemma neg_num (a : ℚ) : (num a).neg = num (-a) := rfl

@[simp] lemma add_num (a b : ℚ) : (num a).add (num b) = num (a + b) := rfl

@[simp] lemma sub_num (a b : ℚ) : (num a).sub (num b) = num (a - b) := by
  simp [sub, sub_eq_add_neg]

@[simp] lemma mul_num (a b : ℚ) : (num a).mul (num b) = num (a * b) := rfl

lemma div_num {b : ℚ} (a : ℚ) (hb : b ≠ 0) : (num a).div (num b) = num (a / b) := by
  simp [div, hb]

@[simp] lemma lt_num (a b : ℚ) : (num a).lt (num b) = decide (a < b) := rfl

@[simp] lemma gt_num (a b : ℚ) : (num a).gt (num b) = decide (b < a) := rfl

@[simp] lemma jsEq_num (a b : ℚ) : (num a).jsEq (num b) = decide (a = b) := rfl

@[simp] lemma abs_num (a : ℚ) : (num a).abs = num |a| := rfl

@[simp] lemma jsMax_num (a b : ℚ) : (num a).jsMax (num b) = num (Max.max a b) := rfl

@[simp] lemma jsMin_num (a b : ℚ) : (num a).jsMin (num b) = num (Min.min a b) := rfl

@[simp] lemma isFinite_num (a : ℚ) : (num a).isFinite = true := rfl

end JSNum

/-! ## Budget pacing analyzer (`SurgicalBudgetAnalysisService`, `src/unnamed/part_007`)

The numeric core of `performSurgicalAnalysis` and its helpers.  The
human-readable message strings (`generateSurgicalMessages`) are display
formatting and are not part of any claim's statement. -/

namespace SBA

inductive RiskLevel where
  | LOW
  | MEDIUM
  | HIGH
  | CRITICAL
deriving DecidableEq

inductive DataQuality where
  | HIGH
  | MEDIUM
  | LOW
deriving DecidableEq

structure SurgicalBudgetAnalysis where
  currentSpend : JSNum
  monthlyBudget : JSNum
  dailyBudget : JSNum
  daysElapsed : JSNum
  daysRemaining : JSNum
  spendVariance : JSNum
  spendVariancePercentage : JSNum
  projectedMonthEndSpend : JSNum
  projectedOverage : JSNum
  recommendedDailyBudget : JSNum
  budgetAdjustmentAmount : JSNum
  budgetAdjustmentPercentage : JSNum
  riskLevel : RiskLevel
  confidenceScore : JSNum
  urgencyScore : JSNum
  dataQuality : DataQuality
deriving DecidableEq

/-- `SurgicalBudgetAnalysisService.calculateRiskLevel`. -/
def calculateRiskLevel (spendVariancePercentage daysRemaining : JSNum) : RiskLevel :=
  let absVariance := spendVariancePercentage.abs
  if absVariance.gt (.num 50) && daysRemaining.lt (.num 5) then .CRITICAL
  else if absVariance.gt (.num 30) && daysRemaining.lt (.num 10) then .HIGH
  else if absVariance.gt (.num 20) then .MEDIUM
  else .LOW

/-- `SurgicalBudgetAnalysisService.calculateUrgencyScore`.  Note the
division by `monthlyBudget` is not guarded. -/
def calculateUrgencyScore (projectedOverage monthlyBudget daysRemaining : JSNum) : JSNum :=
  let overagePercentage := (projectedOverage.div monthlyBudget).mul (.num 100)
  let timeUrgency :=
    (JSNum.jsMax (.num 0) (((JSNum.num 10).sub daysRemaining).div (.num 10))).mul (.num 50)
  let overageUrgency := JSNum.jsMin (.num 50) (overagePercentage.abs.mul (.num 2))
  JSNum.jsMin (.num 100) (timeUrgency.add overageUrgency)

/-- `SurgicalBudgetAnalysisService.calculateConfidenceScore`. -/
def calculateConfidenceScore (daysElapsed currentSpend : JSNum) : JSNum :=
  if currentSpend.jsEq (.num 0) then .num (3 / 10)
  else if daysElapsed.lt (.num 3) then .num (6 / 10)
  else if daysElapsed.lt (.num 7) then .num (8 / 10)
  else .num (95 / 100)

/-- The numeric part of
`SurgicalBudgetAnalysisService.performSurgicalAnalysis`. -/
def performSurgicalAnalysis (currentSpend monthlyBudget daysElapsed daysRemaining
    totalDaysInMonth : JSNum) : SurgicalBudgetAnalysis :=
  let dailyBudget := monthlyBudget.div totalDaysInMonth
  let expectedSpendToDate := (monthlyBudget.div totalDaysInMonth).mul daysElapsed
  let spendVariance := currentSpend.sub expectedSpendToDate
  let spendVariancePercentage :=
    if expectedSpendToDate.gt (.num 0) then
      (spendVariance.div expectedSpendToDate).mul (.num 100)
    else .num 0
  let currentDailyRate := currentSpend.div (JSNum.jsMax daysElapsed (.num 1))
  let projectedMonthEndSpend := currentSpend.add (currentDailyRate.mul daysRemaining)
  let projectedOverage := projectedMonthEndSpend.sub monthlyBudget
  let remainingBudget := monthlyBudget.sub currentSpend
  let recommendedDailyBudget :=
    JSNum.jsMax (.num 0) (remainingBudget.div (JSNum.jsMax daysRemaining (.num 1)))
  let budgetAdjustmentAmount := recommendedDailyBudget.sub dailyBudget
  let budgetAdjustmentPercentage :=
    if dailyBudget.gt (.num 0) then
      (budgetAdjustmentAmount.div dailyBudget).mul (.num 100)
    else .num 0
  { currentSpend := currentSpend,
    monthlyBudget := monthlyBudget,
    dailyBudget := dailyBudget,
    daysElapsed := daysElapsed,
    daysRemaining := daysRemaining,
    spendVariance := spendVariance,
    spendVariancePercentage := spendVariancePercentage,
    projectedMonthEndSpend := projectedMonthEndSpend,
    projectedOverage := projectedOverage,
    recommendedDailyBudget := recommendedDailyBudget,
    budgetAdjustmentAmount := budgetAdjustmentAmount,
    budgetAdjustmentPercentage := budgetAdjustmentPercentage,
    riskLevel := calculateRiskLevel spendVariancePercentage daysRemaining,
    confidenceScore := calculateConfidenceScore daysElapsed currentSpend,
    urgencyScore := calculateUrgencyScore projectedOverage monthlyBudget daysRemaining,
    dataQuality := if currentSpend.gt (.num 0) then .HIGH else .MEDIUM }

/-- The risk classification as the spec states it, over exact rationals. -/
def riskLevelSpec (v d : ℚ) : RiskLevel :=
  if 50 < |v| ∧ d < 5 then .CRITICAL
  else if 30 < |v| ∧ d < 10 then .HIGH
  else if 20 < |v| then .MEDIUM
  else .LOW

end SBA

/-- C7: for every variance percentage and daysRemaining, the code's
`calculateRiskLevel` agrees with the spec's classification — CRITICAL iff
`|v| > 50` and `d < 5`, else HIGH iff `|v| > 30` and `d < 10`, else MEDIUM
iff `|v| > 20`, else LOW — with all comparisons strict, so the boundary
values 50, 30, 20 (and 5, 10 days) fall in the lower band. -/
theorem risk_level_matches_spec :
    (∀ v d : ℚ, SBA.calculateRiskLevel (.num v) (.num d) = SBA.riskLevelSpec v d)
    ∧ SBA.calculateRiskLevel (.num 50) (.num 4) = .HIGH
    ∧ SBA.calculateRiskLevel (.num 51) (.num 5) = .HIGH
    ∧ SBA.calculateRiskLevel (.num 51) (.num 4) = .CRITICAL
    ∧ SBA.calculateRiskLevel (.num 30) (.num 9) = .MEDIUM
    ∧ SBA.calculateRiskLevel (.num 31) (.num 10) = .MEDIUM
    ∧ SBA.calculateRiskLevel (.num 31) (.num 9) = .HIGH
    ∧ SBA.calculateRiskLevel (.num 20) (.num 0) = .LOW
    ∧ SBA.calculateRiskLevel (.num 21) (.num 20) = .MEDIUM
    ∧ SBA.calculateRiskLevel (.num (-51)) (.num 4) = .CRITICAL := by
  refine ⟨?_, by decide, by decide, by decide, by decide, by decide, by decide,
    by decide, by decide, by decide⟩
  intro v d
  simp [SBA.calculateRiskLevel, SBA.riskLevelSpec, Bool.and_eq_true, decide_eq_true_eq]

namespace SBA

lemma max_one_ne_zero (x : ℚ) : Max.max x 1 ≠ 0 :=
  ne_of_gt (lt_of_lt_of_le one_pos (le_max_right x 1))

lemma dailyBudget_num (cs mb de dr td : ℚ) (htd : td ≠ 0) :
    (performSurgicalAnalysis (.num cs) (.num mb) (.num de) (.num dr) (.num td)).dailyBudget
      = .num (mb / td) := by
  simp only [performSurgicalAnalysis]
  rw [JSNum.div_num mb htd]

lemma spendVariance_num (cs mb de dr td : ℚ) (htd : td ≠ 0) :
    (performSurgicalAnalysis (.num cs) (.num mb) (.num de) (.num dr) (.num td)).spendVariance
      = .num (cs - mb / td * de) := by
  simp only [performSurgicalAnalysis]
  rw [JSNum.div_num mb htd, JSNum.mul_num, JSNum.sub_num]

lemma spendVariancePercentage_num (cs mb de dr td : ℚ) (htd : td ≠ 0) :
    (performSurgicalAnalysis (.num cs) (.num mb) (.num de) (.num dr)
        (.num td)).spendVariancePercentage
      = .num (if 0 < mb / td * de then (cs - mb / td * de) / (mb / td * de) * 100 else 0) := by
  simp only [performSurgicalAnalysis]
  rw [JSNum.div_num mb htd, JSNum.mul_num, JSNum.sub_num, JSNum.gt_num]
  by_cases he : 0 < mb / td * de
  · rw [if_pos (by simpa using he), if_pos he,
      JSNum.div_num _ (ne_of_gt he), JSNum.mul_num]
  · rw [if_neg (by simpa using he), if_neg he]

lemma projectedMonthEndSpend_num (cs mb de dr td : ℚ) :
    (performSurgicalAnalysis (.num cs) (.num mb) (.num de) (.num dr)
        (.num td)).projectedMonthEndSpend
      = .num (cs + cs / Max.max de 1 * dr) := by
  simp only [performSurgicalAnalysis]
  rw [JSNum.jsMax_num, JSNum.div_num cs (max_one_ne_zero de), JSNum.mul_num, JSNum.add_num]

lemma projectedOverage_num (cs mb de dr td : ℚ) :
    (performSurgicalAnalysis (.num cs) (.num mb) (.num de) (.num dr)
        (.num td)).projectedOverage
      = .num (cs + cs / Max.max de 1 * dr - mb) := by
  simp only [performSurgicalAnalysis]
  rw [JSNum.jsMax_num, JSNum.div_num cs (max_one_ne_zero de), JSNum.mul_num, JSNum.add_num,
    JSNum.sub_num]

lemma recommendedDailyBudget_num (cs mb de dr td : ℚ) :
    (performSurgicalAnalysis (.num cs) (.num mb) (.num de) (.num dr)
        (.num td)).recommendedDailyBudget
      = .num (Max.max 0 ((mb - cs) / Max.max dr 1)) := by
  simp only [performSurgicalAnalysis]
  rw [JSNum.sub_num, JSNum.jsMax_num, JSNum.div_num _ (max_one_ne_zero dr), JSNum.jsMax_num]

lemma budgetAdjustmentAmount_num (cs mb de dr td : ℚ) (htd : td ≠ 0) :
    (performSurgicalAnalysis (.num cs) (.num mb) (.num de) (.num dr)
        (.num td)).budgetAdjustmentAmount
      = .num (Max.max 0 ((mb - cs) / Max.max dr 1) - mb / td) := by
  simp only [performSurgicalAnalysis]
  rw [JSNum.sub_num, JSNum.jsMax_num, JSNum.div_num _ (max_one_ne_zero dr), JSNum.jsMax_num,
    JSNum.div_num mb htd, JSNum.sub_num]

lemma budgetAdjustmentPercentage_num (cs mb de dr td : ℚ) (htd : td ≠ 0) :
    (performSurgicalAnalysis (.num cs) (.num mb) (.num de) (.num dr)
        (.num td)).budgetAdjustmentPercentage
      = .num (if 0 < mb / td then
          (Max.max 0 ((mb - cs) / Max.max dr 1) - mb / td) / (mb / td) * 100 else 0) := by
  simp only [performSurgicalAnalysis]
  rw [JSNum.sub_num, JSNum.jsMax_num, JSNum.div_num _ (max_one_ne_zero dr), JSNum.jsMax_num,
    JSNum.div_num mb htd, JSNum.sub_num, JSNum.gt_num]
  by_cases hdb : 0 < mb / td
  · rw [if_pos (by simpa using hdb), if_pos hdb,
      JSNum.div_num _ (ne_of_gt hdb), JSNum.mul_num]
  · rw [if_neg (by simpa using hdb), if_neg hdb]

lemma calculateUrgencyScore_num (po mb dr : ℚ) (hmb : mb ≠ 0) :
    calculateUrgencyScore (.num po) (.num mb) (.num dr)
      = .num (Min.min 100 (Max.max 0 ((10 - dr) / 10) * 50
          + Min.min 50 (|po / mb * 100| * 2))) := by
  simp only [calculateUrgencyScore]
  rw [JSNum.div_num po hmb, JSNum.mul_num, JSNum.sub_num,
    JSNum.div_num _ (by norm_num : (10:ℚ) ≠ 0), JSNum.jsMax_num, JSNum.mul_num,
    JSNum.abs_num, JSNum.mul_num, JSNum.jsMin_num, JSNum.add_num, JSNum.jsMin_num]

lemma urgencyScore_num (cs mb de dr td : ℚ) (hmb : mb ≠ 0) :
    (performSurgicalAnalysis (.num cs) (.num mb) (.num de) (.num dr)
        (.num td)).urgencyScore
      = .num (Min.min 100 (Max.max 0 ((10 - dr) / 10) * 50
          + Min.min 50 (|(cs + cs / Max.max de 1 * dr - mb) / mb * 100| * 2))) := by
  simp only [performSurgicalAnalysis]
  rw [JSNum.jsMax_num, JSNum.div_num cs (max_one_ne_zero de), JSNum.mul_num, JSNum.add_num,
    JSNum.sub_num, calculateUrgencyScore_num _ _ _ hmb]

lemma confidenceScore_num (cs mb de dr td : ℚ) :
    ((performSurgicalAnalysis (.num cs) (.num mb) (.num de) (.num dr)
        (.num td)).confidenceScore).isFinite = true := by
  simp only [performSurgicalAnalysis, calculateConfidenceScore]
  split
  · rfl
  · split
    · rfl
    · split
      · rfl
      · rfl

end SBA

/-- C3 counterexample: the claim's guard reading "spendVariancePercentage =
spendVariance/expectedSpendToDate*100 (0 when expectedSpendToDate is 0)"
fails when `expectedSpendToDate` is negative: at inputs
`(0, -1000, 10, 20, 30)` the expected spend `-1000/3` is nonzero, the
claim's formula gives `-100`, but the code's guard is `> 0` so it returns
`0`. -/
theorem budget_formulas_counterexample :
    (SBA.performSurgicalAnalysis (.num 0) (.num (-1000)) (.num 10) (.num 20)
        (.num 30)).spendVariancePercentage = .num 0
    ∧ ((-1000 : ℚ) / 30 * 10 ≠ 0)
    ∧ ((0 - (-1000 : ℚ) / 30 * 10) / ((-1000 : ℚ) / 30 * 10) * 100 = -100)
    ∧ JSNum.num 0 ≠ JSNum.num (-100) := by
  refine ⟨?_, by norm_num, by norm_num, by simp⟩
  rw [SBA.spendVariancePercentage_num 0 (-1000) 10 20 30 (by norm_num)]
  norm_num

/-- C3 amended: with a nonzero month length, every numeric field follows
the stated formula, except that `spendVariancePercentage` is `0` whenever
`expectedSpendToDate` is not strictly positive (the code's guard is `> 0`,
not `= 0`); at the inputs `(284.70, 1000, 10, 20, 30)` the results match
`dailyBudget = 33.33`, `expectedSpendToDate = 333.33`,
`spendVariance = -48.63` to 2-decimal tolerance. -/
theorem budget_analysis_formulas (cs mb de dr td : ℚ) (htd : td ≠ 0) :
    ((SBA.performSurgicalAnalysis (.num cs) (.num mb) (.num de) (.num dr)
        (.num td)).dailyBudget = .num (mb / td)
    ∧ (SBA.performSurgicalAnalysis (.num cs) (.num mb) (.num de) (.num dr)
        (.num td)).spendVariance = .num (cs - mb / td * de)
    ∧ (SBA.performSurgicalAnalysis (.num cs) (.num mb) (.num de) (.num dr)
        (.num td)).spendVariancePercentage
        = .num (if 0 < mb / td * de then (cs - mb / td * de) / (mb / td * de) * 100 else 0)
    ∧ (SBA.performSurgicalAnalysis (.num cs) (.num mb) (.num de) (.num dr)
        (.num td)).projectedMonthEndSpend = .num (cs + cs / Max.max de 1 * dr)
    ∧ (SBA.performSurgicalAnalysis (.num cs) (.num mb) (.num de) (.num dr)
        (.num td)).projectedOverage = .num (cs + cs / Max.max de 1 * dr - mb)
    ∧ (SBA.performSurgicalAnalysis (.num cs) (.num mb) (.num de) (.num dr)
        (.num td)).recommendedDailyBudget = .num (Max.max 0 ((mb - cs) / Max.max dr 1)))
    ∧ ((SBA.performSurgicalAnalysis (.num (2847/10)) (.num 1000) (.num 10) (.num 20)
        (.num 30)).dailyBudget = .num (100/3)
    ∧ |(100 : ℚ)/3 - 3333/100| ≤ 5/1000
    ∧ |(1000 : ℚ)/3 - 33333/100| ≤ 5/1000
    ∧ (SBA.performSurgicalAnalysis (.num (2847/10)) (.num 1000) (.num 10) (.num 20)
        (.num 30)).spendVariance = .num (-1459/30)
    ∧ |(-1459 : ℚ)/30 - (-4863/100)| ≤ 5/1000) := by
  refine ⟨⟨SBA.dailyBudget_num cs mb de dr td htd,
    SBA.spendVariance_num cs mb de dr td htd,
    SBA.spendVariancePercentage_num cs mb de dr td htd,
    SBA.projectedMonthEndSpend_num cs mb de dr td,
    SBA.projectedOverage_num cs mb de dr td,
    SBA.recommendedDailyBudget_num cs mb de dr td⟩, ?_, ?_, ?_, ?_, ?_⟩
  · rw [SBA.dailyBudget_num _ _ _ _ _ (by norm_num : (30:ℚ) ≠ 0)]
    norm_num
  · rw [abs_le]; constructor <;> norm_num
  · rw [abs_le]; constructor <;> norm_num
  · rw [SBA.spendVariance_num _ _ _ _ _ (by norm_num : (30:ℚ) ≠ 0)]
    norm_num
  · rw [abs_le]; constructor <;> norm_num

/-- C3 witness: the formulas instantiated at `(284.70, 1000, 10, 20, 30)`. -/
theorem budget_analysis_formulas_witness :
    (SBA.performSurgicalAnalysis (.num (2847/10)) (.num 1000) (.num 10) (.num 20)
        (.num 30)).dailyBudget = .num (1000 / 30)
    ∧ (SBA.performSurgicalAnalysis (.num (2847/10)) (.num 1000) (.num 10) (.num 20)
        (.num 30)).recommendedDailyBudget
      = .num (Max.max 0 ((1000 - 2847/10) / Max.max 20 1)) := by
  have h := budget_analysis_formulas (2847/10) 1000 10 20 30 (by norm_num)
  exact ⟨h.1.1, h.1.2.2.2.2.2⟩

/-- C5 counterexample: the urgency score's division by `monthlyBudget` is
not guarded: at the finite inputs `(0, 0, 0, 0, 30)` (monthlyBudget `0`,
as the claim explicitly includes) the projected overage is `0`, the code
computes `0/0 = NaN`, and `urgencyScore` is NaN — not a finite number. -/
theorem budget_totality_counterexample :
    (SBA.performSurgicalAnalysis (.num 0) (.num 0) (.num 0) (.num 0)
        (.num 30)).urgencyScore = JSNum.nan
    ∧ JSNum.nan.isFinite = false := by
  refine ⟨?_, rfl⟩
  simp only [SBA.performSurgicalAnalysis, SBA.calculateUrgencyScore]
  norm_num [JSNum.div, JSNum.mul, JSNum.add, JSNum.sub, JSNum.neg, JSNum.jsMax,
    JSNum.jsMin, JSNum.abs]

/-- C5 amended: the divisions behind `spendVariancePercentage` and
`budgetAdjustmentPercentage` are guarded, and the remaining divisors
`max(daysElapsed,1)` and `max(daysRemaining,1)` are never zero; but the
divisions by `totalDaysInMonth` (dailyBudget) and by `monthlyBudget`
(urgency score) are unguarded.  For every finite input with
`totalDaysInMonth ≠ 0` and `monthlyBudget ≠ 0`, every numeric field of the
analysis is a finite number (and the embedded analyzer is a total
function, so no ComputationError is possible). -/
theorem budget_analysis_total (cs mb de dr td : ℚ) (htd : td ≠ 0) (hmb : mb ≠ 0) :
    ((SBA.performSurgicalAnalysis (.num cs) (.num mb) (.num de) (.num dr)
        (.num td)).currentSpend).isFinite = true
    ∧ ((SBA.performSurgicalAnalysis (.num cs) (.num mb) (.num de) (.num dr)
        (.num td)).monthlyBudget).isFinite = true
    ∧ ((SBA.performSurgicalAnalysis (.num cs) (.num mb) (.num de) (.num dr)
        (.num td)).daysElapsed).isFinite = true
    ∧ ((SBA.performSurgicalAnalysis (.num cs) (.num mb) (.num de) (.num dr)
        (.num td)).daysRemaining).isFinite = true
    ∧ ((SBA.performSurgicalAnalysis (.num cs) (.num mb) (.num de) (.num dr)
        (.num td)).dailyBudget).isFinite = true
    ∧ ((SBA.performSurgicalAnalysis (.num cs) (.num mb) (.num de) (.num dr)
        (.num td)).spendVariance).isFinite = true
    ∧ ((SBA.performSurgicalAnalysis (.num cs) (.num mb) (.num de) (.num dr)
        (.num td)).spendVariancePercentage).isFinite = true
    ∧ ((SBA.performSurgicalAnalysis (.num cs) (.num mb) (.num de) (.num dr)
        (.num td)).projectedMonthEndSpend).isFinite = true
    ∧ ((SBA.performSurgicalAnalysis (.num cs) (.num mb) (.num de) (.num dr)
        (.num td)).projectedOverage).isFinite = true
    ∧ ((SBA.performSurgicalAnalysis (.num cs) (.num mb) (.num de) (.num dr)
        (.num td)).recommendedDailyBudget).isFinite = true
    ∧ ((SBA.performSurgicalAnalysis (.num cs) (.num mb) (.num de) (.num dr)
        (.num td)).budgetAdjustmentAmount).isFinite = true
    ∧ ((SBA.performSurgicalAnalysis (.num cs) (.num mb) (.num de) (.num dr)
        (.num td)).budgetAdjustmentPercentage).isFinite = true
    ∧ ((SBA.performSurgicalAnalysis (.num cs) (.num mb) (.num de) (.num dr)
        (.num td)).confidenceScore).isFinite = true
    ∧ ((SBA.performSurgicalAnalysis (.num cs) (.num mb) (.num de) (.num dr)
        (.num td)).urgencyScore).isFinite = true := by
  refine ⟨rfl, rfl, rfl, rfl, ?_, ?_, ?_, ?_, ?_, ?_, ?_, ?_,
    SBA.confidenceScore_num cs mb de dr td, ?_⟩
  · rw [SBA.dailyBudget_num cs mb de dr td htd]; rfl
  · rw [SBA.spendVariance_num cs mb de dr td htd]; rfl
  · rw [SBA.spendVariancePercentage_num cs mb de dr td htd]; rfl
  · rw [SBA.projectedMonthEndSpend_num cs mb de dr td]; rfl
  · rw [SBA.projectedOverage_num cs mb de dr td]; rfl
  · rw [SBA.recommendedDailyBudget_num cs mb de dr td]; rfl
  · rw [SBA.budgetAdjustmentAmount_num cs mb de dr td htd]; rfl
  · rw [SBA.budgetAdjustmentPercentage_num cs mb de dr td htd]; rfl
  · rw [SBA.urgencyScore_num cs mb de dr td hmb]; rfl

/-- C5 witness: at the finite inputs `(1, 1, 1, 1, 30)` every numeric
field, in particular the urgency score, is finite. -/
theorem budget_analysis_total_witness :
    ((SBA.performSurgicalAnalysis (.num 1) (.num 1) (.num 1) (.num 1)
        (.num 30)).urgencyScore).isFinite = true
    ∧ ((SBA.performSurgicalAnalysis (.num 1) (.num 1) (.num 1) (.num 1)
        (.num 30)).dailyBudget).isFinite = true := by
  have h := budget_analysis_total 1 1 1 1 30 (by norm_num) (by norm_num)
  exact ⟨h.2.2.2.2.2.2.2.2.2.2.2.2.2, h.2.2.2.2.1⟩

/-! ## Issue detection and health score (`IssueDetectionService`, `server/services/google-ads.ts`)

Only the fields the detectors read are modelled: an issue's severity and
owning campaign (its id/title/description/recommendation strings are
payload).  Each fallible upstream call is a pre-determined `Except`
outcome; the per-campaign metrics fetches inside `detectPerformanceIssues`
are a list of per-campaign outcomes consumed in order, mirroring the
sequential `for` loop. -/

namespace Issues

inductive Severity where
  | critical
  | high
  | medium
  | low
deriving DecidableEq

/-- `getSeverityWeight` (the string-typed default branch `0` is
unreachable for the severity enum). -/
def getSeverityWeight : Severity → Nat
  | .critical => 4
  | .high => 3
  | .medium => 2
  | .low => 1

structure DetectedIssue where
  campaignId : String
  severity : Severity
deriving DecidableEq

/-- Descending severity-weight order used by
`issues.sort((a, b) => weight(b) - weight(a))`. -/
def sortRel (a b : DetectedIssue) : Prop :=
  getSeverityWeight b.severity ≤ getSeverityWeight a.severity

instance : DecidableRel sortRel := fun a b =>
  inferInstanceAs (Decidable (getSeverityWeight b.severity ≤ getSeverityWeight a.severity))

instance : IsTotal DetectedIssue sortRel :=
  ⟨fun a b => Nat.le_total (getSeverityWeight b.severity) (getSeverityWeight a.severity)⟩

instance : IsTrans DetectedIssue sortRel :=
  ⟨fun _ _ _ hab hbc => Nat.le_trans hbc hab⟩

/-- The fields of a `SurgicalBudgetAnalysis` that `detectBudgetIssues`
reads. -/
structure BudgetRow where
  campaignId : String
  riskLevel : SBA.RiskLevel
deriving DecidableEq

/-- `detectBudgetIssues`: a failure of the budget analysis is caught and
the issues accumulated so far (none, since the analysis call is first)
are returned. -/
def detectBudgetIssues (r : Except ε (List BudgetRow)) : List DetectedIssue :=
  match r with
  | .error _ => []
  | .ok analyses =>
    analyses.filterMap (fun a =>
      if a.riskLevel = .CRITICAL ∨ a.riskLevel = .HIGH then
        some { campaignId := a.campaignId,
               severity := if a.riskLevel = .CRITICAL then .critical else .high }
      else none)

structure Campaign where
  id : String
deriving DecidableEq

structure Metrics where
  ctr : ℚ
  cpc : ℚ
  conversionRate : ℚ
  clicks : ℚ
deriving DecidableEq

/-- The issues the performance loop body pushes for one campaign. -/
def campaignPerformanceIssues (c : Campaign) (m : Metrics) : List DetectedIssue :=
  (if m.ctr < 2/100 then
    [{ campaignId := c.id,
       severity := if m.ctr < 1/100 then .high else .medium }]
   else [])
  ++ (if 5 < m.cpc then
    [{ campaignId := c.id,
       severity := if 10 < m.cpc then .high else .medium }]
   else [])
  ++ (if m.conversionRate < 2/100 ∧ 100 < m.clicks then
    [{ campaignId := c.id, severity := .medium }]
   else [])

/-- The sequential metrics loop: a failing fetch aborts the loop and the
issues accumulated before it are returned (the `catch` keeps them). -/
def perfLoop : List (Campaign × Except ε Metrics) → List DetectedIssue
  | [] => []
  | (_, .error _) :: _ => []
  | (c, .ok m) :: rest => campaignPerformanceIssues c m ++ perfLoop rest

/-- `detectPerformanceIssues`: a failed campaign-list fetch is caught and
yields no issues. -/
def detectPerformanceIssues (r : Except ε (List (Campaign × Except ε Metrics))) :
    List DetectedIssue :=
  match r with
  | .error _ => []
  | .ok campaigns => perfLoop campaigns

/-- `detectQualityScoreIssues`: the quality-score scan is a placeholder
that pushes no issues (and catches its own failures). -/
def detectQualityScoreIssues : List DetectedIssue := []

/-- `detectAccountIssues`: throws only when the account is missing; the
three detectors each swallow their own failures, and the concatenated
issues are sorted descending by severity weight (the outer `catch` is
unreachable because no detector throws). -/
def detectAccountIssues (accountExists : Bool)
    (budget : Except ε (List BudgetRow))
    (perf : Except ε (List (Campaign × Except ε Metrics))) :
    Except String (List DetectedIssue) :=
  if accountExists then
    .ok ((detectBudgetIssues budget ++ detectPerformanceIssues perf
          ++ detectQualityScoreIssues).insertionSort sortRel)
  else .error "Account not found"

def countSeverity (l : List DetectedIssue) (s : Severity) : Nat :=
  (l.filter (fun i => i.severity = s)).length

/-- The score/grade computation of `calculateHealthScore`, as a function
of the issue-severity counts. -/
def healthFromCounts (critical high medium low : Nat) : Int × String :=
  let score : Int := 100
  let score := score - critical * 25
  let score := score - high * 15
  let score := score - medium * 8
  let score := score - low * 3
  let score := Max.max 0 score
  let grade :=
    if 90 ≤ score then "A"
    else if 80 ≤ score then "B"
    else if 70 ≤ score then "C"
    else if 60 ≤ score then "D"
    else "F"
  (score, grade)

structure AccountHealthScore where
  score : Int
  grade : String
  critical : Nat
  high : Nat
  medium : Nat
  low : Nat
deriving DecidableEq

/-- `calculateHealthScore`. -/
def calculateHealthScore (accountExists : Bool)
    (budget : Except ε (List BudgetRow))
    (perf : Except ε (List (Campaign × Except ε Metrics))) :
    Except String AccountHealthScore :=
  match detectAccountIssues accountExists budget perf with
  | .error e => .error e
  | .ok issues =>
    let c := countSeverity issues .critical
    let h := countSeverity issues .high
    let m := countSeverity issues .medium
    let l := countSeverity issues .low
    .ok { score := (healthFromCounts c h m l).1, grade := (healthFromCounts c h m l).2,
          critical := c, high := h, medium := m, low := l }

/-- Modelled from the claim's words for C10: a detector inside which any
failure occurred "simply contributes no issues", so the result is the
issues of the detectors that fully succeeded. -/
def claimedDetectorIssues (budget : Except ε (List BudgetRow))
    (perf : Except ε (List (Campaign × Except ε Metrics))) : List DetectedIssue :=
  (match budget with
   | .error _ => []
   | .ok analyses => detectBudgetIssues (.ok (ε := ε) analyses))
  ++ (match perf with
   | .error _ => []
   | .ok campaigns =>
     if campaigns.all (fun p => p.2.isOk) then perfLoop campaigns else [])

end Issues

/-- C8: the health score is 100 minus 25 per critical, 15 per high, 8 per
medium and 3 per low issue, floored at 0, and the grade is A for
score ≥ 90, B for ≥ 80, C for ≥ 70, D for ≥ 60, else F; counts
`{critical 1, high 2}` give `(45, F)` and all-zero counts give
`(100, A)`. -/
theorem health_score_formula :
    (∀ c h m l : Nat,
      Issues.healthFromCounts c h m l =
        (Max.max 0 (100 - (25 * c + 15 * h + 8 * m + 3 * l) : Int),
         if 90 ≤ Max.max 0 (100 - (25 * c + 15 * h + 8 * m + 3 * l) : Int) then "A"
         else if 80 ≤ Max.max 0 (100 - (25 * c + 15 * h + 8 * m + 3 * l) : Int) then "B"
         else if 70 ≤ Max.max 0 (100 - (25 * c + 15 * h + 8 * m + 3 * l) : Int) then "C"
         else if 60 ≤ Max.max 0 (100 - (25 * c + 15 * h + 8 * m + 3 * l) : Int) then "D"
         else "F"))
    ∧ Issues.healthFromCounts 1 2 0 0 = (45, "F")
    ∧ Issues.healthFromCounts 0 0 0 0 = (100, "A") := by
  refine ⟨?_, by decide, by decide⟩
  intro c h m l
  have harith : (100 : Int) - c * 25 - h * 15 - m * 8 - l * 3
      = 100 - (25 * c + 15 * h + 8 * m + 3 * l) := by ring
  simp only [Issues.healthFromCounts, harith]

/-- C10 counterexample: the claim says a failing detector "simply
contributes no issues".  With the budget analysis failing and two
campaigns whose first metrics fetch succeeds (bad CTR) but whose second
fails, the code keeps the issues accumulated before the failure: it
returns one medium CTR issue, while the claim's reading (the failed
performance detector contributes nothing, as do the other detectors)
yields the empty list. -/
theorem issue_detection_counterexample :
    Issues.detectAccountIssues true (.error () : Except Unit (List Issues.BudgetRow))
        (.ok [(⟨"c1"⟩, .ok ⟨1/100, 1, 1, 0⟩), (⟨"c2"⟩, .error ())])
      = .ok [{ campaignId := "c1", severity := .medium }]
    ∧ Issues.claimedDetectorIssues (.error () : Except Unit (List Issues.BudgetRow))
        (.ok [(⟨"c1"⟩, .ok ⟨1/100, 1, 1, 0⟩), (⟨"c2"⟩, .error ())]) = []
    ∧ ([{ campaignId := "c1", severity := .medium }] : List Issues.DetectedIssue) ≠ [] := by
  refine ⟨?_, ?_, by simp⟩
  · norm_num [Issues.detectAccountIssues, Issues.detectBudgetIssues,
      Issues.detectPerformanceIssues, Issues.perfLoop, Issues.campaignPerformanceIssues,
      Issues.detectQualityScoreIssues, List.insertionSort, List.orderedInsert]
  · norm_num [Issues.claimedDetectorIssues, Except.isOk, Except.toBool]

/-- C10 amended: provided the account exists, `detectAccountIssues` never
raises; each detector swallows its own failures, contributing the issues
it accumulated before its first failure (possibly none) rather than
necessarily none; the result is a severity-sorted permutation of the
surviving detectors' issues; and when every detector fails before
producing anything the result is the empty list, whereupon
`calculateHealthScore` reports score 100 and grade A even though no
detection actually ran. -/
theorem issue_detection_resilient {ε : Type}
    (budget : Except ε (List Issues.BudgetRow))
    (perf : Except ε (List (Issues.Campaign × Except ε Issues.Metrics))) :
    (∃ l, Issues.detectAccountIssues true budget perf = .ok l)
    ∧ (∀ l, Issues.detectAccountIssues true budget perf = .ok l →
        l.Sorted Issues.sortRel
        ∧ l.Perm (Issues.detectBudgetIssues budget
            ++ Issues.detectPerformanceIssues perf))
    ∧ (Issues.detectBudgetIssues budget = [] →
        Issues.detectPerformanceIssues perf = [] →
        Issues.detectAccountIssues true budget perf = .ok []
        ∧ Issues.calculateHealthScore true budget perf
            = .ok { score := 100, grade := "A",
                    critical := 0, high := 0, medium := 0, low := 0 }) := by
  refine ⟨⟨_, rfl⟩, ?_, ?_⟩
  · intro l hl
    simp only [Issues.detectAccountIssues, if_pos, Except.ok.injEq] at hl
    subst hl
    refine ⟨List.sorted_insertionSort Issues.sortRel _, ?_⟩
    have hperm := List.perm_insertionSort Issues.sortRel
      (Issues.detectBudgetIssues budget ++ Issues.detectPerformanceIssues perf
        ++ Issues.detectQualityScoreIssues)
    simpa [Issues.detectQualityScoreIssues] using hperm
  · intro hb hp
    have hdet : Issues.detectAccountIssues true budget perf = .ok [] := by
      simp [Issues.detectAccountIssues, hb, hp, Issues.detectQualityScoreIssues,
        List.insertionSort]
    refine ⟨hdet, ?_⟩
    simp only [Issues.calculateHealthScore, hdet]
    rfl

/-- C10 witness: with the budget analysis and the campaign-list fetch both
failing, `detectAccountIssues` returns the empty list (rather than
raising) and `calculateHealthScore` reports 100/A. -/
theorem issue_detection_resilient_witness :
    Issues.detectAccountIssues true (.error () : Except Unit (List Issues.BudgetRow))
        (.error () : Except Unit (List (Issues.Campaign × Except Unit Issues.Metrics)))
      = .ok []
    ∧ Issues.calculateHealthScore true (.error () : Except Unit (List Issues.BudgetRow))
        (.error () : Except Unit (List (Issues.Campaign × Except Unit Issues.Metrics)))
      = .ok { score := 100, grade := "A", critical := 0, high := 0, medium := 0, low := 0 }
    ∧ ([] : List Issues.DetectedIssue).Sorted Issues.sortRel := by
  have h := issue_detection_resilient (.error () : Except Unit (List Issues.BudgetRow))
    (.error () : Except Unit (List (Issues.Campaign × Except Unit Issues.Metrics)))
  have he := h.2.2 rfl rfl
  exact ⟨he.1, he.2, (h.2.1 [] he.1).1⟩
